import Mathlib

/-!
Shallow embedding of `src/printpost.py` (thermal-printer receipt utility).

Pure formatting functions are embedded as Lean functions on `String`;
the config store is a pair of abstract JSON documents; the USB/serial
transports are modelled by an explicit write log (`Dev`) together with a
stream of write outcomes (a `false` outcome models an OS-level write
raising an exception).  Python `float` values appearing in the program
(2.50, 10.00, ...) are all exactly representable dyadic decimals, and
every arithmetic operation performed on them in the program is exact in
binary64, so they are embedded as exact decimals (`Dec`) whose string
form is Python's shortest-round-trip `str`.
-/

/-! ### ESC/POS command constants (`PrinterConfig.COMMANDS`), as byte lists -/

def cmd_bold_on : List Nat := [0x1B, 0x45, 0x01]

def cmd_bold_off : List Nat := [0x1B, 0x45, 0x00]

def cmd_large_on : List Nat := [0x1B, 0x21, 0x10]

def cmd_large_off : List Nat := [0x1B, 0x21, 0x00]

def cmd_buzzer : List Nat := [0x1B, 0x42, 0x05, 0x07]

def cmd_cut : List Nat := [0x1D, 0x56, 0x00]

def cmd_line_feed : List Nat := [0x0A]

/-! ### Python string primitives

`str.ljust` / `str.rjust` / `str.center` with the space fill character.
`pyCenter` follows CPython's `do_center`: `marg = width - len(s)`,
`left = marg // 2 + (marg & width & 1)`. -/

def spaces (n : Nat) : String := String.mk (List.replicate n ' ')

def pyLjust (s : String) (w : Nat) : String :=
  if w ≤ s.length then s else s ++ spaces (w - s.length)

def pyRjust (s : String) (w : Nat) : String :=
  if w ≤ s.length then s else spaces (w - s.length) ++ s

def pyCenter (s : String) (w : Nat) : String :=
  if w ≤ s.length then s
  else
    let marg := w - s.length
    let left := marg / 2 + (marg &&& w &&& 1)
    spaces left ++ s ++ spaces (marg - left)

/-- UTF-8 encoding of a single code point (Lean `Char` excludes surrogates). -/
def utf8Char (c : Char) : List Nat :=
  let n := c.toNat
  if n < 0x80 then [n]
  else if n < 0x800 then [0xC0 + n / 0x40, 0x80 + n % 0x40]
  else if n < 0x10000 then
    [0xE0 + n / 0x1000, 0x80 + n / 0x40 % 0x40, 0x80 + n % 0x40]
  else
    [0xF0 + n / 0x40000, 0x80 + n / 0x1000 % 0x40, 0x80 + n / 0x40 % 0x40,
      0x80 + n % 0x40]

/-- `s.encode('utf-8')`, the transport-side encoding of a line. -/
def utf8Encode (s : String) : List Nat := (s.data.map utf8Char).flatten

/-- `bytes.decode()` for an all-ASCII byte string (every ESC/POS command byte
used by the program is `< 0x80`, so UTF-8 decode is byte-per-character). -/
def utf8DecodeAscii (bs : List Nat) : String := String.mk (bs.map Char.ofNat)

/-! ### Exact decimal model of the Python floats used by the program -/

/-- A nonnegative decimal `man / 10 ^ exp`.  The floats the program
manipulates (2.50, 10.00, 20.00, 5.00 and their integer multiples and sums)
are exactly representable in binary64 and all arithmetic on them is exact,
so this embedding is faithful on the program's value domain. -/
structure Dec where
  man : Nat
  exp : Nat
deriving DecidableEq, Repr

/-- Strip trailing decimal zeros (Python floats carry no trailing zeros:
`2.50 == 2.5`, `str(2.5) = "2.5"`). -/
def decNormAux : Nat → Nat → Dec
  | m, 0 => ⟨m, 0⟩
  | m, e + 1 => if m % 10 = 0 then decNormAux (m / 10) e else ⟨m, e + 1⟩

def Dec.norm (d : Dec) : Dec := decNormAux d.man d.exp

/-- `qty * price` (Python `int * float`, exact on this domain). -/
def Dec.mulNat (q : Nat) (d : Dec) : Dec := Dec.norm ⟨q * d.man, d.exp⟩

/-- Exact addition of two decimals (Python `float + float`, exact here). -/
def Dec.add (a b : Dec) : Dec :=
  let e := max a.exp b.exp
  Dec.norm ⟨a.man * 10 ^ (e - a.exp) + b.man * 10 ^ (e - b.exp), e⟩

/-- Python `str(x)` for a float `x` in this domain: the natural (shortest)
decimal representation, with `".0"` appended to integral values. -/
def pyFloatStr (d : Dec) : String :=
  let d := d.norm
  if d.exp = 0 then toString d.man ++ ".0"
  else
    let ip := d.man / 10 ^ d.exp
    let fp := d.man % 10 ^ d.exp
    let fs := toString fp
    toString ip ++ "." ++ String.mk (List.replicate (d.exp - fs.length) '0') ++ fs

/-! ### `PrintFormatter`

One function per static method; Python's default argument values
(`width=45`, `'-'`, `44`, field widths `15/4/7/10`) are passed explicitly
at every call site below. -/

def bold (text : String) : String :=
  utf8DecodeAscii cmd_bold_on ++ text ++ utf8DecodeAscii cmd_bold_off

def large (text : String) : String :=
  utf8DecodeAscii cmd_large_on ++ text ++ utf8DecodeAscii cmd_large_off

def center (text : String) (width : Nat) : String := pyCenter text width

def left_align (text : String) (width : Nat) : String := pyLjust text width

def right_align (text : String) (width : Nat) : String := pyRjust text width

def holder_line (c : Char) (len : Nat) : String := String.mk (List.replicate len c)

def format_receipt_item (name : String) (qty : Nat) (price : Dec)
    (name_width qty_width price_width total_width : Nat) : String :=
  let extended_price := Dec.mulNat qty price
  pyLjust name name_width ++ pyLjust (toString qty) qty_width ++
    pyLjust (pyFloatStr price) price_width ++
      pyRjust (pyFloatStr extended_price) total_width

/-! ### `PrinterManager` config store

Each JSON document is either absent (`open` raises `FileNotFoundError`),
unreadable (`open`/`json.load` raises some other exception), or a JSON
object, modelled as a key/value list.  `save_*` take an extra `ioOk`
argument standing for the success of the underlying file write. -/

inductive DocState where
  | absent
  | unreadable
  | content (kvs : List (String × String))
deriving DecidableEq, Repr

structure ConfigStore where
  deviceDoc : DocState
  typeDoc : DocState
deriving DecidableEq, Repr

def save_printer_config (x : String) (ioOk : Bool) (st : ConfigStore) :
    Bool × ConfigStore :=
  if ioOk then (true, ⟨DocState.content [("printer", x)], st.typeDoc⟩)
  else (false, st)

def save_printer_type (k : String) (ioOk : Bool) (st : ConfigStore) :
    Bool × ConfigStore :=
  if ioOk then (true, ⟨st.deviceDoc, DocState.content [("type_printer", k)]⟩)
  else (false, st)

def load_printer_config (st : ConfigStore) : Option String :=
  match st.deviceDoc with
  | DocState.absent => none
  | DocState.unreadable => none
  | DocState.content kvs => List.lookup "printer" kvs

def load_printer_type (st : ConfigStore) : String :=
  match st.typeDoc with
  | DocState.absent => "usb"
  | DocState.unreadable => "usb"
  | DocState.content kvs => (List.lookup "type_printer" kvs).getD "usb"

/-! ### Transport model

A transport endpoint is modelled by `Dev`: the log of `write` calls made so
far (each entry one byte sequence, one entry per `write` call) together
with a stream of outcomes for the upcoming writes.  A `false` outcome means
that `write` raises an OS/driver exception (and transfers nothing); once
the stream is exhausted every further write succeeds.  `Except.error`
carries the device state at the moment the exception is raised. -/

structure Dev where
  outcomes : List Bool
  log : List (List Nat)
deriving DecidableEq, Repr

def devWrite (bytes : List Nat) : Dev → Except Dev Dev
  | ⟨[], log⟩ => Except.ok ⟨[], log ++ [bytes]⟩
  | ⟨true :: rest, log⟩ => Except.ok ⟨rest, log ++ [bytes]⟩
  | ⟨false :: rest, log⟩ => Except.error ⟨rest, log⟩

/-- Perform a sequence of `write` calls, stopping at the first raised
exception (Python's control flow inside the surrounding `try`). -/
def writeMany : List (List Nat) → Dev → Except Dev Dev
  | [], d => Except.ok d
  | b :: rest, d =>
    match devWrite b d with
    | Except.ok d2 => writeMany rest d2
    | Except.error d2 => Except.error d2

/-- The per-line writes: `out.write(f"{line}\n".encode('utf-8'))`. -/
def lineWrites (textLines : List String) : List (List Nat) :=
  textLines.map (fun l => utf8Encode (l ++ "\x0A"))

/-- The trailer writes shared by both transports: five line feeds, the cut
command, one more line feed, then the buzzer command when `is_buzzer`. -/
def trailerWrites (is_buzzer : Bool) : List (List Nat) :=
  List.replicate 5 cmd_line_feed ++ [cmd_cut] ++ [cmd_line_feed] ++
    (if is_buzzer then [cmd_buzzer] else [])

/-- Outcome of `requests.get(image_url, timeout=10)`. -/
inductive FetchOutcome where
  | raiseNet
  | status (code : Nat)
deriving DecidableEq, Repr

/-- The environment a print call runs in: the persisted config documents,
which optional libraries imported successfully, the connected USB devices
(as the description strings `get_usb_devices` derives for them), whether
the USB configuration/interface and OUT endpoint can be resolved, whether
`usb.util.dispose_resources(device)` completes without raising, whether
`serial.Serial(port, 9600, timeout=1)` opens, whether `ser.close()`
completes without raising, and the HTTP/image-decode outcomes for the
logo. -/
structure Env where
  store : ConfigStore
  usbAvailable : Bool
  serialAvailable : Bool
  requestsAvailable : Bool
  pillowAvailable : Bool
  usbDevices : List String
  setConfigOk : Bool
  hasOutEndpoint : Bool
  usbDisposeOk : Bool
  serialOpenOk : String → Bool
  serialCloseOk : Bool
  logoFetch : String → FetchOutcome
  imageDecodeOk : Bool

/-- `Printer._print_image_from_url`: fetch and decode only; it never writes
to the output device (image-to-raster conversion is an acknowledged gap in
the code).  Every failure is caught internally and returned as `False`. -/
def print_image_from_url (env : Env) (image_url : String) : Bool :=
  if !env.requestsAvailable then false
  else if !env.pillowAvailable then false
  else
    match env.logoFetch image_url with
    | FetchOutcome.raiseNet => false
    | FetchOutcome.status code =>
      if code = 200 then (if env.imageDecodeOk then true else false)
      else false

/-- `device_info.startswith(tuple('123456789'))`. -/
def startsWithNonzeroDigit (s : String) : Bool :=
  match s.data with
  | [] => false
  | c :: _ => decide ('1' ≤ c ∧ c ≤ '9')

/-- USB device resolution in `_print_to_usb`: when the stored identifier
starts with a nonzero digit, re-enumerate and match it against each
device's re-derived description (a match yields the device at the same
enumeration index).  The remaining branches — no description match
(`device = None`), identifier not digit-initial (`device` is the raw
string, so `set_configuration` raises `AttributeError`), or empty string
(falsy) — all print a message and return `False` having written nothing
and disposed nothing, so they are observably identical and merged here
into `false`. -/
def find_usb_device (env : Env) (device_info : String) : Bool :=
  startsWithNonzeroDigit device_info && env.usbDevices.contains device_info

/-- `Printer._print_to_usb`.  Result: (returned bool, device state,
whether `usb.util.dispose_resources` was attempted).  The dispose call
itself sits inside the `try`: if every write succeeds but
`dispose_resources` raises, the `except` handler returns `False` after the
dispose attempt. -/
def print_to_usb (env : Env) (device_info : String) (text_lines : List String)
    (logo_url : Option String) (is_buzzer : Bool) (d : Dev) :
    Bool × Dev × Bool :=
  if !env.usbAvailable then (false, d, false)
  else if !find_usb_device env device_info then (false, d, false)
  else if !env.setConfigOk then (false, d, false)
  else if !env.hasOutEndpoint then (false, d, false)
  else
    -- logo: `self._print_image_from_url(logo_url, out_endpoint)`, result ignored,
    -- no bytes reach the endpoint
    let _ := logo_url.map (print_image_from_url env)
    match writeMany (lineWrites text_lines ++ trailerWrites is_buzzer) d with
    | Except.error d2 => (false, d2, false)
    | Except.ok d2 =>
      if env.usbDisposeOk then (true, d2, true) else (false, d2, true)

/-- `Printer._print_to_serial`.  Result: (returned bool, device state,
whether `ser.close()` was attempted).  The close call itself sits inside
the `try`: if every write succeeds but `close()` raises, the `except`
handler returns `False` after the close attempt. -/
def print_to_serial (env : Env) (port : String) (text_lines : List String)
    (logo_url : Option String) (is_buzzer : Bool) (d : Dev) :
    Bool × Dev × Bool :=
  -- `serial.Serial(port, baudrate=9600, timeout=1)`: whether the named port
  -- opens is part of the environment
  if !env.serialAvailable then (false, d, false)
  else if !env.serialOpenOk port then (false, d, false)
  else
    let _ := logo_url.map (print_image_from_url env)
    match writeMany (lineWrites text_lines ++ trailerWrites is_buzzer) d with
    | Except.error d2 => (false, d2, false)
    | Except.ok d2 =>
      if env.serialCloseOk then (true, d2, true) else (false, d2, true)

/-- `Printer.print_receipt`.  `if not printer_config` treats both a missing
value and an empty string as unconfigured; any type string other than
`"serial"` routes to the USB path. -/
def print_receipt (env : Env) (receipt_lines : List String)
    (logo_url : Option String) (is_buzzer : Bool) (d : Dev) :
    Bool × Dev × Bool :=
  match load_printer_config env.store with
  | none => (false, d, false)
  | some cfg =>
    if cfg = "" then (false, d, false)
    else if load_printer_type env.store = "serial" then
      print_to_serial env cfg receipt_lines logo_url is_buzzer d
    else
      print_to_usb env cfg receipt_lines logo_url is_buzzer d

/-! ### `Printer.print_test_receipt` -/

/-- The three fixed sample items `(name, qty, price)`; prices are the
decimals the literals `10.00`, `20.00`, `5.00` denote. -/
def testItems : List (String × Nat × Dec) :=
  [("Item 1", 2, ⟨1000, 2⟩), ("Item 2", 1, ⟨2000, 2⟩), ("Item 3", 3, ⟨500, 2⟩)]

/-- `total = sum(item['qty'] * item['price'] for item in test_items)`
(Python `sum` starts from integer 0). -/
def testTotal : Dec :=
  (testItems.map (fun it => Dec.mulNat it.2.1 it.2.2)).foldl Dec.add ⟨0, 0⟩

/-- The receipt lines `print_test_receipt` builds. -/
def testReceiptLines : List String :=
  [pyCenter (holder_line '-' 44) 45,
   pyCenter (bold "Your Company Name") 45,
   pyCenter "123 Main St, City" 45,
   pyCenter "Phone: 123-456-7890" 45,
   pyCenter (bold "Date: 2023-12-31") 45,
   pyCenter (holder_line '-' 44) 45,
   pyCenter "Item          Qty  Price     Ext Price" 45,
   pyCenter (holder_line '-' 44) 45] ++
  testItems.map
    (fun it => pyCenter (format_receipt_item it.1 it.2.1 it.2.2 15 4 7 10) 45) ++
  [pyCenter (holder_line '-' 44) 45,
   pyCenter (pyLjust "Total" 10 ++ pyRjust (pyFloatStr testTotal) 8) 45,
   pyCenter (holder_line '-' 44) 45,
   pyCenter "Thank you for your business!" 45,
   pyCenter (holder_line '-' 44) 45]

/-- `Printer.print_test_receipt`: check the config itself (same falsiness
test as `print_receipt`), then delegate to `print_receipt` with the canned
lines, no logo URL, and `is_buzzer=True`. -/
def print_test_receipt (env : Env) (d : Dev) : Bool × Dev × Bool :=
  match load_printer_config env.store with
  | none => (false, d, false)
  | some cfg =>
    if cfg = "" then (false, d, false)
    else print_receipt env testReceiptLines none true d

/-! ### Helper lemmas -/

theorem spaces_length (n : Nat) : (spaces n).length = n := by
  simp [spaces, String.length]

theorem writeMany_ok_log (items : List (List Nat)) (d d' : Dev)
    (h : writeMany items d = Except.ok d') : d'.log = d.log ++ items := by
  induction items generalizing d with
  | nil =>
    simp only [writeMany] at h
    cases h
    simp
  | cons b rest ih =>
    obtain ⟨outs, log⟩ := d
    cases outs with
    | nil =>
      simp only [writeMany, devWrite] at h
      simpa using ih ⟨[], log ++ [b]⟩ h
    | cons o os =>
      cases o with
      | false => simp [writeMany, devWrite] at h
      | true =>
        simp only [writeMany, devWrite] at h
        simpa using ih ⟨os, log ++ [b]⟩ h

theorem print_to_usb_ok (env : Env) (ci : String) (L : List String)
    (u : Option String) (b : Bool) (d d' : Dev) (disp : Bool)
    (h : print_to_usb env ci L u b d = (true, d', disp)) :
    writeMany (lineWrites L ++ trailerWrites b) d = Except.ok d' ∧ disp = true := by
  simp only [print_to_usb] at h
  repeat' split at h
  all_goals simp_all

theorem print_to_serial_ok (env : Env) (port : String) (L : List String)
    (u : Option String) (b : Bool) (d d' : Dev) (disp : Bool)
    (h : print_to_serial env port L u b d = (true, d', disp)) :
    writeMany (lineWrites L ++ trailerWrites b) d = Except.ok d' ∧ disp = true := by
  simp only [print_to_serial] at h
  repeat' split at h
  all_goals simp_all

theorem print_receipt_ok (env : Env) (L : List String) (u : Option String)
    (b : Bool) (d d' : Dev) (disp : Bool)
    (h : print_receipt env L u b d = (true, d', disp)) :
    d'.log = d.log ++ (lineWrites L ++ trailerWrites b) ∧ disp = true := by
  simp only [print_receipt] at h
  split at h
  · simp at h
  · split at h
    · simp at h
    · split at h
      · have := print_to_serial_ok _ _ _ _ _ _ _ _ h
        exact ⟨writeMany_ok_log _ _ _ this.1, this.2⟩
      · have := print_to_usb_ok _ _ _ _ _ _ _ _ h
        exact ⟨writeMany_ok_log _ _ _ this.1, this.2⟩

theorem utf8Encode_append (s t : String) :
    utf8Encode (s ++ t) = utf8Encode s ++ utf8Encode t := by
  simp [utf8Encode, String.data_append]

theorem utf8Encode_bold_on : utf8Encode (utf8DecodeAscii cmd_bold_on) = cmd_bold_on := by
  decide

theorem utf8Encode_bold_off : utf8Encode (utf8DecodeAscii cmd_bold_off) = cmd_bold_off := by
  decide

theorem utf8Encode_large_on : utf8Encode (utf8DecodeAscii cmd_large_on) = cmd_large_on := by
  decide

theorem utf8Encode_large_off : utf8Encode (utf8DecodeAscii cmd_large_off) = cmd_large_off := by
  decide

/-! ### Claim theorems -/

/-- C4: `center`, `left_align` and `right_align` return `text` unchanged when
`len(text) ≥ w`; when `len(text) < w` they return a string of exactly length
`w` that contains `text` as a contiguous substring (padding only, no
truncation). -/
theorem align_pads_never_truncates (text : String) (w : Nat) :
    (w ≤ text.length →
      center text w = text ∧ left_align text w = text ∧ right_align text w = text)
    ∧ (text.length < w →
      ((center text w).length = w ∧ ∃ p q, center text w = p ++ text ++ q)
      ∧ ((left_align text w).length = w ∧ ∃ p q, left_align text w = p ++ text ++ q)
      ∧ ((right_align text w).length = w ∧ ∃ p q, right_align text w = p ++ text ++ q)) := by
  have hb : (w - text.length) &&& w &&& 1 ≤ 1 := by
    rw [Nat.and_one_is_mod]; omega
  constructor
  · intro h
    simp [center, left_align, right_align, pyCenter, pyLjust, pyRjust, h]
  · intro h
    have hn : ¬ w ≤ text.length := by omega
    refine ⟨⟨?_, ?_⟩, ⟨?_, ?_⟩, ⟨?_, ?_⟩⟩
    · simp only [center, pyCenter, if_neg hn]
      rw [String.length_append, String.length_append, spaces_length, spaces_length]
      omega
    · simp only [center, pyCenter, if_neg hn]
      exact ⟨_, _, rfl⟩
    · simp only [left_align, pyLjust, if_neg hn]
      rw [String.length_append, spaces_length]
      omega
    · simp only [left_align, pyLjust, if_neg hn]
      exact ⟨"", spaces (w - text.length), by rw [String.empty_append]⟩
    · simp only [right_align, pyRjust, if_neg hn]
      rw [String.length_append, spaces_length]
      omega
    · simp only [right_align, pyRjust, if_neg hn]
      exact ⟨spaces (w - text.length), "", by rw [String.append_empty]⟩

/-- C4 witness: `center "ab" 5` pads to length 5 and keeps `"ab"` inside. -/
theorem align_pads_never_truncates_witness :
    (center "ab" 5).length = 5 ∧ ∃ p q, center "ab" 5 = p ++ "ab" ++ q :=
  ((align_pads_never_truncates "ab" 5).2 (by decide)).1

/-- C6: after a successful `saveDevice(x)`, `loadDevice()` returns `x`; with
the device document absent, `loadDevice()` returns `None`; and
`loadTransportKind()` returns `"usb"` whenever its document is absent or
unreadable. -/
theorem config_roundtrip_and_defaults (x : String) (st st' : ConfigStore) (ok : Bool) :
    (save_printer_config x ok st = (true, st') → load_printer_config st' = some x)
    ∧ (st.deviceDoc = DocState.absent → load_printer_config st = none)
    ∧ (st.typeDoc = DocState.absent ∨ st.typeDoc = DocState.unreadable →
        load_printer_type st = "usb") := by
  refine ⟨?_, ?_, ?_⟩
  · intro h
    cases ok with
    | false => simp [save_printer_config] at h
    | true =>
      simp only [save_printer_config, if_pos] at h
      obtain ⟨-, h⟩ := Prod.mk.injEq .. ▸ h
      simp [← h, load_printer_config, List.lookup]
  · intro h
    simp [load_printer_config, h]
  · rintro (h | h) <;> simp [load_printer_type, h]

/-- C6 witness: save then load round-trips on a concrete store. -/
theorem config_roundtrip_and_defaults_witness :
    load_printer_config
      (save_printer_config "COM3" true ⟨DocState.absent, DocState.absent⟩).2 =
      some "COM3" :=
  (config_roundtrip_and_defaults "COM3" ⟨DocState.absent, DocState.absent⟩
    (save_printer_config "COM3" true ⟨DocState.absent, DocState.absent⟩).2 true).1 rfl

/-- C7: `formatItemLine("Widget", 3, 2.50)` with default widths 15/4/7/10 has
length 36, carries `"Widget"` left-justified in the first 15 characters, and
the extended price `str(3 * 2.50) = "7.5"` (natural decimal representation,
no currency rounding) right-justified in the last 10 characters. -/
theorem format_item_widget_line :
    (format_receipt_item "Widget" 3 ⟨250, 2⟩ 15 4 7 10).length = 36
    ∧ (format_receipt_item "Widget" 3 ⟨250, 2⟩ 15 4 7 10).take 15 = "Widget         "
    ∧ (format_receipt_item "Widget" 3 ⟨250, 2⟩ 15 4 7 10).drop 26 = "       7.5"
    ∧ pyFloatStr (Dec.mulNat 3 ⟨250, 2⟩) = "7.5" := by
  refine ⟨by decide, by decide, by decide, by decide⟩

/-- C8: encoding `bold(text)` (resp. `large(text)`) back to bytes the way the
transport does (UTF-8) yields exactly the bold-on (large-on) command bytes,
the encoding of `text`, then the bold-off (large-off) command bytes: the
embedded control bytes survive the decode/encode round trip unchanged. -/
theorem bold_large_byte_roundtrip (text : String) :
    utf8Encode (bold text) = cmd_bold_on ++ utf8Encode text ++ cmd_bold_off
    ∧ utf8Encode (large text) = cmd_large_on ++ utf8Encode text ++ cmd_large_off := by
  constructor
  · simp [bold, utf8Encode_append, utf8Encode_bold_on, utf8Encode_bold_off]
  · simp [large, utf8Encode_append, utf8Encode_large_on, utf8Encode_large_off]

/-! ### Concrete environments used by witnesses and the counterexample -/

def envSerialOk : Env :=
  ⟨⟨DocState.content [("printer", "/dev/ttyUSB0")],
    DocState.content [("type_printer", "serial")]⟩,
   true, true, true, true, [], true, true, true, (fun _ => true), true,
   (fun _ => FetchOutcome.raiseNet), true⟩

def envUnconfigured : Env :=
  ⟨⟨DocState.absent, DocState.absent⟩,
   true, true, true, true, [], true, true, true, (fun _ => true), true,
   (fun _ => FetchOutcome.status 200), true⟩

def envOddType : Env :=
  ⟨⟨DocState.content [("printer", "1. 003-004: Maker Model")],
    DocState.content [("type_printer", "bluetooth")]⟩,
   true, true, true, true, ["1. 003-004: Maker Model"], true, true, true,
   (fun _ => true), true, (fun _ => FetchOutcome.status 200), true⟩

/-- C1 counterexample: with the serial transport resolved (the port opens)
and the very first line write raising, `print_receipt` returns the failure
result with the dispose flag `false` — `dispose()`/`close()` is never
attempted on this exit path, contrary to the claim. -/
theorem dispose_skipped_on_failure_cex :
    load_printer_type envSerialOk.store = "serial"
    ∧ envSerialOk.serialOpenOk "/dev/ttyUSB0" = true
    ∧ print_receipt envSerialOk ["A"] none true ⟨[false], []⟩ =
        (false, ⟨[], []⟩, false) := by
  refine ⟨by decide, rfl, by decide⟩

/-- C1 (amended): for every print call in which the transport has been
resolved (USB OUT endpoint found, or serial port opened) and a later step
raises an error — in this program the only later steps that can raise out
are the line and trailer writes, since the logo step catches everything
internally — `print_receipt` returns the failure result WITHOUT attempting
`dispose()` of the transport. -/
theorem write_failure_skips_dispose (env : Env) (L : List String)
    (u : Option String) (b : Bool) (d d' : Dev) (cfg : String)
    (hcfg : load_printer_config env.store = some cfg) (hne : cfg ≠ "")
    (hw : writeMany (lineWrites L ++ trailerWrites b) d = Except.error d') :
    (load_printer_type env.store = "serial" →
      env.serialAvailable = true → env.serialOpenOk cfg = true →
      print_receipt env L u b d = (false, d', false))
    ∧ (load_printer_type env.store ≠ "serial" →
      env.usbAvailable = true → find_usb_device env cfg = true →
      env.setConfigOk = true → env.hasOutEndpoint = true →
      print_receipt env L u b d = (false, d', false)) := by
  constructor
  · intro hser hav hopen
    simp [print_receipt, print_to_serial, hcfg, hne, hser, hav, hopen, hw]
  · intro hns hav hfind hset hep
    simp [print_receipt, print_to_usb, hcfg, hne, hns, hav, hfind, hset, hep, hw]

/-- C1 witness: with the serial port resolved and the very first write
raising, the concrete call returns failure with no dispose attempt. -/
theorem write_failure_skips_dispose_witness :
    print_receipt envSerialOk ["A"] none true ⟨[false], []⟩ =
      (false, ⟨[], []⟩, false) :=
  (write_failure_skips_dispose envSerialOk ["A"] none true ⟨[false], []⟩
    ⟨[], []⟩ "/dev/ttyUSB0" rfl (by decide) rfl).1 rfl rfl rfl

/-- C2: when no device identifier is persisted (`loadDevice` yields `None`),
`print_receipt` fails and performs zero transport writes: the device state
is returned untouched and no transport is resolved or opened. -/
theorem unconfigured_print_no_writes (env : Env) (L : List String)
    (u : Option String) (b : Bool) (d : Dev)
    (h : load_printer_config env.store = none) :
    print_receipt env L u b d = (false, d, false) := by
  simp [print_receipt, h]

/-- C2 witness: with both config documents absent the call fails with an
unchanged (empty) write log. -/
theorem unconfigured_print_no_writes_witness :
    print_receipt envUnconfigured ["x"] none true ⟨[], []⟩ =
      (false, ⟨[], []⟩, false) :=
  unconfigured_print_no_writes envUnconfigured ["x"] none true ⟨[], []⟩ rfl

/-- C3: on every successful `print_receipt` call the transport receives,
after the last text line, exactly: five line-feed writes, the cut command,
one more line feed, then the buzzer command iff the buzzer flag is set —
identically on the USB and serial paths (both run the same write sequence). -/
theorem success_trailer_bytes (env : Env) (L : List String) (u : Option String)
    (b : Bool) (d d' : Dev) (disp : Bool)
    (h : print_receipt env L u b d = (true, d', disp)) :
    d'.log = d.log ++ lineWrites L ++ List.replicate 5 cmd_line_feed ++ [cmd_cut]
      ++ [cmd_line_feed] ++ (if b then [cmd_buzzer] else []) := by
  have hlog := (print_receipt_ok env L u b d d' disp h).1
  simp [hlog, trailerWrites, List.append_assoc]

/-- C3 witness: a concrete successful serial print of one line `"A"` with the
buzzer on produces exactly the line bytes followed by the trailer. -/
theorem success_trailer_bytes_witness :
    (Dev.mk [] [[65, 10], [10], [10], [10], [10], [10], [29, 86, 0], [10],
        [27, 66, 5, 7]]).log =
      (Dev.mk [] []).log ++ lineWrites ["A"] ++ List.replicate 5 cmd_line_feed
        ++ [cmd_cut] ++ [cmd_line_feed] ++ (if true then [cmd_buzzer] else []) :=
  success_trailer_bytes envSerialOk ["A"] none true ⟨[], []⟩ _ true (by decide)

theorem print_receipt_logo_irrelevant (env : Env) (L : List String) (url : String)
    (b : Bool) (d : Dev) :
    print_receipt env L (some url) b d = print_receipt env L none b d := rfl

/-- C5: a failing logo fetch/decode (network raise, non-200 status, or decode
error) never affects the call: `print_receipt` with the failing `logo_url`
returns exactly what the same call without a logo returns, so a configured,
working device still gets all text lines and the full trailer and the call
succeeds. -/
theorem logo_failure_still_prints (env : Env) (L : List String) (url : String)
    (b : Bool) (d d' : Dev) (disp : Bool)
    (hfail : print_image_from_url env url = false)
    (hok : print_receipt env L none b d = (true, d', disp)) :
    print_receipt env L (some url) b d = (true, d', disp)
    ∧ d'.log = d.log ++ (lineWrites L ++ trailerWrites b) := by
  rw [print_receipt_logo_irrelevant]
  exact ⟨hok, (print_receipt_ok env L none b d d' disp hok).1⟩

/-- C5 witness: a concrete print with a logo URL whose fetch raises still
writes the line and full trailer and succeeds. -/
theorem logo_failure_still_prints_witness :
    print_receipt envSerialOk ["A"] (some "http://logo.png") true ⟨[], []⟩ =
      (true, ⟨[], [[65, 10], [10], [10], [10], [10], [10], [29, 86, 0], [10],
        [27, 66, 5, 7]]⟩, true)
    ∧ (Dev.mk [] [[65, 10], [10], [10], [10], [10], [10], [29, 86, 0], [10],
        [27, 66, 5, 7]]).log =
        (Dev.mk [] []).log ++ (lineWrites ["A"] ++ trailerWrites true) :=
  logo_failure_still_prints envSerialOk ["A"] "http://logo.png" true ⟨[], []⟩
    _ true rfl (by decide)

/-- C9: `print_test_receipt` builds its receipt from the three fixed sample
items (2 × 10.00, 1 × 20.00, 3 × 5.00), computes the total as
2*10 + 1*20 + 3*5 = 55.0, renders `"55.0"` on the receipt's total line, and
delegates to `print_receipt` with `buzzer=true`. -/
theorem test_receipt_total_and_delegation (env : Env) (d : Dev) (cfg : String) :
    testTotal = Dec.add (Dec.add (Dec.add ⟨0, 0⟩ (Dec.mulNat 2 ⟨1000, 2⟩))
        (Dec.mulNat 1 ⟨2000, 2⟩)) (Dec.mulNat 3 ⟨500, 2⟩)
    ∧ testTotal = ⟨55, 0⟩
    ∧ pyFloatStr testTotal = "55.0"
    ∧ pyCenter (pyLjust "Total" 10 ++ pyRjust "55.0" 8) 45 ∈ testReceiptLines
    ∧ (load_printer_config env.store = some cfg → cfg ≠ "" →
        print_test_receipt env d = print_receipt env testReceiptLines none true d) := by
  refine ⟨by decide, by decide, by decide, by decide, ?_⟩
  intro h hne
  simp [print_test_receipt, h, hne]

/-- C9 witness: with a configured serial device the test print is exactly
the delegated `print_receipt` call on the canned lines with the buzzer on. -/
theorem test_receipt_total_and_delegation_witness :
    print_test_receipt envSerialOk ⟨[], []⟩ =
      print_receipt envSerialOk testReceiptLines none true ⟨[], []⟩ :=
  (test_receipt_total_and_delegation envSerialOk ⟨[], []⟩ "/dev/ttyUSB0").2.2.2.2
    rfl (by decide)

/-- C10: any persisted transport-kind value other than exactly `"serial"`
(including values outside `{usb, serial}`) routes the print to the USB path;
no validation error is raised for an out-of-range transport kind. -/
theorem nonserial_type_routes_usb (env : Env) (L : List String)
    (u : Option String) (b : Bool) (d : Dev) (cfg : String)
    (h : load_printer_config env.store = some cfg) (hne : cfg ≠ "")
    (hns : load_printer_type env.store ≠ "serial") :
    print_receipt env L u b d = print_to_usb env cfg L u b d := by
  simp [print_receipt, h, hne, hns]

/-- C10 witness: the corrupted transport kind `"bluetooth"` routes to the
USB path. -/
theorem nonserial_type_routes_usb_witness :
    print_receipt envOddType ["A"] none true ⟨[], []⟩ =
      print_to_usb envOddType "1. 003-004: Maker Model" ["A"] none true ⟨[], []⟩ :=
  nonserial_type_routes_usb envOddType ["A"] none true ⟨[], []⟩ _
    rfl (by decide) (by decide)
